import Mathlib

/-!
# Verification of the pet lost-and-found backend

A shallow embedding in Lean 4 of the parts of the Python backend
(`backend/routers/reports.py`, `backend/routers/matches.py`,
`backend/routers/ai_search.py`, `backend/routers/embeddings_supabase.py`,
`backend/hf-upload/routers/direct_matches.py`,
`backend/hf-upload/services/embeddings.py`,
`backend/services/embeddings_hf_api.py`, `backend/hf-upload/main.py`)
that the specification's claims are about, together with theorems that
settle those claims.

Modelling conventions:
* Python floats are modelled as real numbers `ℝ` (geometry, scoring), or
  as rationals `ℚ` where no transcendental function is involved
  (match-table scores).  Float rounding error is not modelled.
* Python's `round(x, n)` is modelled by `pyRound n x` below; Python rounds
  exact ties to even while `pyRound` rounds them up, a divergence that is
  confined to exact decimal midpoints.
* A raised Python exception is modelled by the `Except` monad; the error
  value records whether the exception was an explicit `HTTPException`
  (carrying its status code) or an uncaught exception (which the web
  framework converts to a 500-class server error response).
* Database rows are modelled by structures carrying the fields the claims
  touch; result sets of database queries are passed to the embedded
  request handlers as explicit lists.
-/

/-- The two ways an embedded request handler can fail: an explicit
`HTTPException` with a status code, or an uncaught Python exception
(rendered by FastAPI as a 500-class server error). -/
inductive ReqError where
  | http (code : ℕ)
  | uncaught
deriving DecidableEq, Repr

/-- Python's `round(x, n)`: round to `n` decimal digits.  Python rounds
exact ties to even; `pyRound` rounds them upward — the two agree except at
exact decimal midpoints. -/
def pyRound {α : Type} [LinearOrderedField α] [FloorRing α] (n : ℕ) (x : α) : α :=
  (round (x * 10 ^ n) : ℤ) / 10 ^ n

/-- `math.radians`: degrees to radians. -/
noncomputable def radiansOf (x : ℝ) : ℝ := x * Real.pi / 180

/-- `haversine_km(lat1, lon1, lat2, lon2)` as defined identically in
`reports.py`, `matches.py` and `ai_search.py`: great-circle distance in
kilometers with Earth radius `R = 6371.0`. -/
noncomputable def haversine_km (lat1 lon1 lat2 lon2 : ℝ) : ℝ :=
  let R : ℝ := 6371.0
  let dlat := radiansOf (lat2 - lat1)
  let dlon := radiansOf (lon2 - lon1)
  let a := Real.sin (dlat / 2) ^ 2 +
    Real.cos (radiansOf lat1) * Real.cos (radiansOf lat2) * Real.sin (dlon / 2) ^ 2
  2 * R * Real.arcsin (Real.sqrt a)

section LocationParsing

/-- A Python `float` literal as accepted by `float(...)` in the cases the
backend meets: optional sign, decimal digits with an optional fractional
part and an optional exponent.  (`inf`, `nan` and underscore separators
are not modelled.)  Returns `none` when `float(...)` would raise
`ValueError`. -/
def parsePyFloat (s : String) : Option ℚ :=
  let chars := s.data
  let (sign, rest) :=
    match chars with
    | '-' :: r => ((-1 : ℚ), r)
    | '+' :: r => ((1 : ℚ), r)
    | r => ((1 : ℚ), r)
  let digits := rest.takeWhile Char.isDigit
  let afterInt := rest.drop digits.length
  let (fracDigits, afterFrac) :=
    match afterInt with
    | '.' :: r => (r.takeWhile Char.isDigit, (r.drop (r.takeWhile Char.isDigit).length))
    | r => ([], r)
  let (expOk, expVal) :=
    match afterFrac with
    | [] => (true, (0 : ℤ))
    | 'e' :: r | 'E' :: r =>
      let (esign, er) :=
        match r with
        | '-' :: rr => ((-1 : ℤ), rr)
        | '+' :: rr => ((1 : ℤ), rr)
        | rr => ((1 : ℤ), rr)
      let eds := er.takeWhile Char.isDigit
      if eds.length = er.length ∧ eds ≠ [] then
        (true, esign * (eds.foldl (fun (acc : ℕ) (c : Char) => acc * 10 + (c.toNat - '0'.toNat)) 0 : ℕ))
      else (false, 0)
    | _ => (false, 0)
  if digits = [] ∧ fracDigits = [] then none
  else if ¬ expOk then none
  else
    let intVal : ℕ := digits.foldl (fun (acc : ℕ) (c : Char) => acc * 10 + (c.toNat - '0'.toNat)) 0
    let fracVal : ℕ := fracDigits.foldl (fun (acc : ℕ) (c : Char) => acc * 10 + (c.toNat - '0'.toNat)) 0
    let base : ℚ := (intVal : ℚ) + (fracVal : ℚ) / (10 ^ fracDigits.length)
    some (sign * base * (10 : ℚ) ^ expVal)

/-- The JSON-ish values the `location` column of a report can hold, as the
routers see them after JSON decoding:
* `null` — absent/`None`/falsy location;
* `str s` — a string (the PostGIS `"SRID=4326;POINT(lon lat)"` form);
* `geojson cs` — a dict that has a `"coordinates"` key whose value is the
  list `cs` (the GeoJSON `{"type":"Point","coordinates":[lon,lat]}` form);
* `dictNoCoords` — a (truthy) dict without a `"coordinates"` key;
* `other` — any other truthy JSON value. -/
inductive LocationData where
  | null
  | str (s : String)
  | geojson (coordinates : List ℝ)
  | dictNoCoords
  | other

/-- Destructuring assignment `lon, lat = xs` on a list: succeeds exactly
when the list has two elements, otherwise raises `ValueError`. -/
def unpack2 {α : Type} : List α → Except ReqError (α × α)
  | [a, b] => .ok (a, b)
  | _ => .error .uncaught

/-- The PostGIS branch of `reports.py::_extract_coords`:
`location_data.split("POINT(")[1].split(")")[0]`, whitespace-split, both
tokens converted by `float`, returned as `(lat, lon)`; any failure inside
the `try` yields `None`. -/
def parsePostgisPoint (s : String) : Option (ℝ × ℝ) :=
  match (s.splitOn "POINT(")[1]? with
  | none => none
  | some afterOpen =>
    let coordsStr := ((afterOpen.splitOn ")").headD "")
    let tokens := (coordsStr.split Char.isWhitespace).filter (fun t => t ≠ "")
    match tokens with
    | [t1, t2] =>
      match parsePyFloat t1, parsePyFloat t2 with
      | some lon, some lat => some ((lat : ℝ), (lon : ℝ))
      | _, _ => none
    | _ => none

/-- `reports.py::_extract_coords`: extracts a `(lat, lon)` pair from either
the PostGIS textual form or the GeoJSON form, returning `None` on any
malformed input (every parsing step is wrapped in `try/except`). -/
def _extract_coords (location_data : LocationData) : Option (ℝ × ℝ) :=
  match location_data with
  | .null => none
  | .str s =>
    if (s.splitOn "POINT(").length ≥ 2 then parsePostgisPoint s
    else none
  | .geojson cs =>
    match unpack2 cs with
    | .ok (lon, lat) => some (lat, lon)
    | .error _ => none
  | .dictNoCoords => none
  | .other => none
end LocationParsing

section Labels

/-- One element of a `labels` array, as seen by
`matches.py::label_set`/`ai_search.py::label_set`:
* `falsy` — a falsy element (`null` or the empty dict `{}`), skipped by the
  comprehension's `if it` filter;
* `entry label description` — a truthy dict, with the string values of its
  `"label"` and `"description"` keys (`none` when the key is absent). -/
inductive LabelItem where
  | falsy
  | entry (label description : Option String)
deriving DecidableEq

/-- The JSON value of a report's `labels` column:
* `falsy` — `None`, `{}`, or any other falsy value (yields the empty set);
* `dictWithList items` — a truthy dict whose `"labels"` key holds a list;
* `dictOther` — a truthy dict whose `"labels"` key is absent or not a list;
* `nonDict` — a truthy non-dict value. -/
inductive PyLabels where
  | falsy
  | dictWithList (items : List LabelItem)
  | dictOther
  | nonDict
deriving DecidableEq

/-- `str.lower()` restricted to per-character lowercasing (written through
`Char.toLower` so that it evaluates by `decide`; it is the same character
map as `String.toLower`). -/
def pyLower (s : String) : String := ⟨s.data.map Char.toLower⟩

/-- Python truthiness filter on an optional string: `None` and `""` are
falsy. -/
def truthyStr : Option String → Option String
  | some s => if s = "" then none else some s
  | none => none

/-- `(it.get("label") or it.get("description") or "")`: the first truthy
value among the two fields, else `""`. -/
def labelOrDescription (label description : Option String) : String :=
  ((truthyStr label).or (truthyStr description)).getD ""

/-- `matches.py::label_set` (duplicated verbatim in `ai_search.py`):
lower-cased `label`-or-`description` of every truthy entry of the `labels`
array, as a set. -/
def label_set (labels_json : PyLabels) : Finset String :=
  match labels_json with
  | .falsy => ∅
  | .dictOther => ∅
  | .nonDict => ∅
  | .dictWithList items =>
    (items.filterMap (fun it =>
      match it with
      | .falsy => none
      | .entry l d => some (pyLower (labelOrDescription l d)))).toFinset

/-- The auto-match score formula of `matches.py::auto_match`:
`score = overlap * 10 - d * 0.2`. -/
noncomputable def matchScore (overlap : ℕ) (d : ℝ) : ℝ := (overlap : ℝ) * 10 - d * 0.2

end Labels

section ReportsRouter

/-- A row of the `reports` table, restricted to the fields the embedded
handlers read.  `species` is optional because `dict.get("species")` may
yield `None`. -/
structure Report where
  id : String
  rtype : String
  status : String
  species : Option String
  location : LocationData
  labels : PyLabels

/-- One element of the list returned by `GET /reports/nearby`: the report
together with the `distance_km` key attached to it (rounded to 2 decimal
digits by the handler). -/
structure NearbyEntry where
  report : Report
  distance_km : ℝ

/-- The candidate loop of `reports.py::get_nearby_reports`: for each
report, extract coordinates (skip on failure), compute the haversine
distance, keep the report when the distance is within the radius,
attaching `distance_km = round(distance, 2)`. -/
noncomputable def nearbyEntries (lat lng radius_km : ℝ) : List Report → List NearbyEntry
  | [] => []
  | r :: rest =>
    match _extract_coords r.location with
    | none => nearbyEntries lat lng radius_km rest
    | some (report_lat, report_lon) =>
      let distance := haversine_km lat lng report_lat report_lon
      if distance ≤ radius_km then
        ⟨r, pyRound 2 distance⟩ :: nearbyEntries lat lng radius_km rest
      else nearbyEntries lat lng radius_km rest

/-- `reports.py::get_nearby_reports`: the database query returns the rows
with `status = "active"` of the `reports` table (passed here as `table`);
the handler then filters by distance and sorts ascending by the attached
`distance_km`.  Returns the sorted list and the reported `count`. -/
noncomputable def get_nearby_reports (lat lng radius_km : ℝ) (table : List Report) :
    List NearbyEntry × ℕ :=
  let active := table.filter (fun r => r.status == "active")
  let nearby := nearbyEntries lat lng radius_km active
  let sorted := nearby.mergeSort (fun a b => decide (a.distance_km ≤ b.distance_km))
  (sorted, sorted.length)

/-- The required-field validation of `reports.py::create_report` together
with the subsequent insert: the handler checks, in order, that the keys
`type`, `reporter_id`, `species`, `description`, `location` are present in
the JSON body, raising `HTTPException(400, ...)` at the first missing one,
and otherwise inserts the row as given.  No other validation is performed
(in particular the `photos` list is never length-checked). -/
structure CreatePayload where
  hasType : Bool
  hasReporterId : Bool
  hasSpecies : Bool
  hasDescription : Bool
  hasLocation : Bool
  photos : List String
deriving DecidableEq

/-- Outcome of `POST /reports/`: rejected with a client-error status before
the insert, or inserted (carrying the stored `photos` list). -/
inductive CreateOutcome where
  | rejected (code : ℕ)
  | inserted (photos : List String)
deriving DecidableEq

/-- `reports.py::create_report` (validation and insert; the embedding
side-effects that follow never reject the request). -/
def create_report (p : CreatePayload) : CreateOutcome :=
  if ¬ p.hasType then .rejected 400
  else if ¬ p.hasReporterId then .rejected 400
  else if ¬ p.hasSpecies then .rejected 400
  else if ¬ p.hasDescription then .rejected 400
  else if ¬ p.hasLocation then .rejected 400
  else .inserted p.photos

end ReportsRouter

section MatchesRouter

/-- `matches.py::_coords` (duplicated verbatim in `ai_search.py`): the
GeoJSON-only extractor.  Unlike `reports.py::_extract_coords` it performs
the destructuring `lon, lat = loc["coordinates"]` with no exception guard,
so a `coordinates` value that is not a two-element list raises. -/
def _coords (loc : LocationData) : Except ReqError (Option (ℝ × ℝ)) :=
  match loc with
  | .geojson cs => do
    let (lon, lat) ← unpack2 cs
    pure (some (lat, lon))
  | _ => .ok none

/-- One element of the `top_k` list returned by `GET /matches/auto-match`
(the presentation-only `candidate` sub-dict is reduced to the candidate's
id). -/
structure MatchEntry where
  candidateId : String
  distance_km : ℝ
  label_overlap : ℕ
  score : ℝ

/-- The response of `GET /matches/auto-match`. -/
structure AutoMatchOut where
  report_id : String
  radius_km : ℝ
  total_candidates : ℕ
  top_k : List MatchEntry

/-- The candidate loop of `matches.py::auto_match`: for each candidate,
extract GeoJSON coordinates (an exception propagates; a missing location
skips the candidate), apply the ±`radius_km/111` bounding-box pre-filter,
compute the exact haversine distance, discard candidates beyond the
radius, and score the survivors as `overlap * 10 - d * 0.2`, recording
`round(d, 2)`, the overlap, and `round(score, 3)`. -/
noncomputable def scoreCandidates (base_lat base_lon pad radius_km : ℝ)
    (base_labels : Finset String) : List Report → Except ReqError (List MatchEntry)
  | [] => .ok []
  | c :: rest =>
    match _coords c.location with
    | .error err => .error err
    | .ok pt =>
      match scoreCandidates base_lat base_lon pad radius_km base_labels rest with
      | .error err => .error err
      | .ok tail =>
        match pt with
        | none => .ok tail
        | some (lat, lon) =>
          if base_lat - pad ≤ lat ∧ lat ≤ base_lat + pad ∧
              base_lon - pad ≤ lon ∧ lon ≤ base_lon + pad then
            let d := haversine_km base_lat base_lon lat lon
            if d > radius_km then .ok tail
            else
              let overlap := (base_labels ∩ label_set c.labels).card
              let score := matchScore overlap d
              .ok (⟨c.id, pyRound 2 d, overlap, pyRound 3 score⟩ :: tail)
          else .ok tail

/-- `matches.py::auto_match`: loads the base report (404 when absent),
parses its location (400 when missing; an exception from a malformed
GeoJSON value propagates), loads all active candidates of the opposite
type and the same species, scores them (`scoreCandidates`), sorts
descending by the recorded score and truncates to `top_k`.
`total_candidates` is the number of candidates that passed the geographic
filter. -/
noncomputable def auto_match (report_id : String) (radius_km : ℝ) (top_k : ℕ)
    (table : List Report) : Except ReqError AutoMatchOut :=
  match table.find? (fun r => r.id == report_id) with
  | none => .error (.http 404)
  | some base =>
    match _coords base.location with
    | .error err => .error err
    | .ok none => .error (.http 400)
    | .ok (some (base_lat, base_lon)) =>
      let base_labels := label_set base.labels
      let target_type := if base.rtype == "lost" then "found" else "lost"
      let candidates := table.filter (fun c =>
        c.rtype == target_type && c.status == "active" && c.species == base.species)
      let pad := radius_km / 111.0
      match scoreCandidates base_lat base_lon pad radius_km base_labels candidates with
      | .error err => .error err
      | .ok results =>
        let sorted := results.mergeSort (fun a b => decide (b.score ≤ a.score))
        .ok ⟨report_id, radius_km, results.length, sorted.take top_k⟩

/-- Predicate written from the claim's words (not from the code): a
candidate "survives the bounding-box pre-filter of ±`radius_km/111.0`
degrees in each axis and lies within the exact Haversine radius".  Used
only to state the total-candidate-count property of `auto_match`. -/
noncomputable def passesGeoFilter (base_lat base_lon pad radius_km : ℝ) (c : Report) : Bool :=
  match _coords c.location with
  | .ok (some (lat, lon)) =>
    decide ((base_lat - pad ≤ lat ∧ lat ≤ base_lat + pad ∧
      base_lon - pad ≤ lon ∧ lon ≤ base_lon + pad) ∧
      haversine_km base_lat base_lon lat lon ≤ radius_km)
  | _ => false

end MatchesRouter

section AISearchRouter

/-- `ai_search.py::color_set`: lower-cased truthy entries of a color list,
as a set. -/
def color_set (colors_json : List String) : Finset String :=
  ((colors_json.filter (fun c => c ≠ "")).map pyLower).toFinset

/-- `ai_search.py::calculate_color_similarity`: Jaccard overlap ×100
between two color lists; `0` when either list (or either resulting set) is
empty. -/
noncomputable def calculate_color_similarity (analysis_colors candidate_colors : List String) : ℝ :=
  if analysis_colors = [] ∨ candidate_colors = [] then 0
  else
    let set1 := color_set analysis_colors
    let set2 := color_set candidate_colors
    if set1 = ∅ ∨ set2 = ∅ then 0
    else
      let intersection := (set1 ∩ set2).card
      let union := (set1 ∪ set2).card
      if union = 0 then 0
      else ((intersection : ℝ) / (union : ℝ)) * 100

/-- `ai_search.py::calculate_location_score(distance_km, max_distance_km)`:
`100` when the distance is `≤ 0`, `0` at or beyond the maximum, and
`max(0, 100 - (distance/max)*100)` in between. -/
noncomputable def calculate_location_score (distance_km max_distance_km : ℝ) : ℝ :=
  if distance_km ≤ 0 then 100
  else if distance_km ≥ max_distance_km then 0
  else max 0 (100 - (distance_km / max_distance_km) * 100)

/-- `ai_search.py::calculate_time_score`, with the age computation
abstracted: the argument is `some days_old` when
`(now - parsed created_at).days` evaluates to `days_old`, and `none` when
the timestamp cannot be parsed (the `except` branch). -/
def calculate_time_score (days_old : Option ℤ) : ℝ :=
  match days_old with
  | none => 50
  | some d => if d ≤ 1 then 100 else if d ≤ 7 then 80 else if d ≤ 30 then 60 else 40

/-- A candidate row as the `ai_search` scoring loop sees it: the
vector-search similarity when that path produced one, the stored `colors`,
the parsed age in days of `created_at` (`none` when unparseable), and the
location. -/
structure AICandidate where
  id : String
  similarity : Option ℝ
  colors : List String
  created_days_old : Option ℤ
  location : LocationData

/-- One element of the `matches` list of the AI-search response (rounded
presentation values as stored by the handler, plus the raw candidate id). -/
structure AIResult where
  candidateId : String
  distance_km : ℝ
  visual_similarity : ℝ
  color_similarity : ℝ
  location_score : ℝ
  time_score : ℝ
  total_score : ℝ
  match_confidence : String

/-- The per-candidate loop of `ai_search.py::ai_search` (lines 427–489):
skip candidates without parseable coordinates (a malformed GeoJSON value
raises — propagated here), skip candidates beyond `radius_km`, score the
rest and keep those with a weighted total of at least 30. -/
noncomputable def aiScoreLoop (user_lat user_lng radius_km : ℝ) :
    List AICandidate → Except ReqError (List AIResult)
  | [] => .ok []
  | c :: rest =>
    match _coords c.location with
    | .error err => .error err
    | .ok pt =>
      match aiScoreLoop user_lat user_lng radius_km rest with
      | .error err => .error err
      | .ok tail =>
        match pt with
        | none => .ok tail
        | some (cand_lat, cand_lng) =>
          let distance_km := haversine_km user_lat user_lng cand_lat cand_lng
          if distance_km > radius_km then .ok tail
          else
            let visual_score := match c.similarity with
              | some s => s * 100
              | none => 50
            let color_score :=
              if c.colors ≠ [] then calculate_color_similarity [] c.colors else 0
            let location_score := calculate_location_score distance_km radius_km
            let time_score := calculate_time_score c.created_days_old
            let total_score := visual_score * 0.4 + color_score * 0.3 +
              location_score * 0.2 + time_score * 0.1
            if total_score ≥ 30 then
              .ok (⟨c.id, pyRound 2 distance_km, pyRound 1 visual_score,
                pyRound 1 color_score, pyRound 1 location_score, pyRound 1 time_score,
                pyRound 1 total_score,
                if total_score ≥ 70 then "Alta"
                else if total_score ≥ 50 then "Media" else "Baja"⟩ :: tail)
            else .ok tail

/-- The result-assembly tail of `ai_search.py::ai_search`: run the scoring
loop, sort descending by the recorded total score, truncate to the best
20.  The handler body is wrapped in `try/except` that re-raises any
non-`HTTPException` as `HTTPException(500, ...)`, so an exception from the
loop surfaces as a 500 server error. -/
noncomputable def ai_search_rank (user_lat user_lng radius_km : ℝ)
    (candidates : List AICandidate) : Except ReqError (List AIResult) :=
  match aiScoreLoop user_lat user_lng radius_km candidates with
  | .error _ => .error (.http 500)
  | .ok results =>
    .ok ((results.mergeSort (fun a b => decide (b.total_score ≤ a.total_score))).take 20)

end AISearchRouter

section MatchesTable

/-- A row of the `matches` table (the fields the embedded operations
touch). -/
structure MatchRow where
  id : String
  lost_report_id : String
  found_report_id : String
  similarity_score : ℚ
  matched_by : String
  status : String
deriving DecidableEq

/-- The ordered `(lost_report_id, found_report_id)` pair of a row. -/
def MatchRow.pair (r : MatchRow) : String × String := (r.lost_report_id, r.found_report_id)

/-- The invariant claimed by the specification: at most one stored row per
ordered `(lost_report_id, found_report_id)` pair. -/
def uniquePairs (table : List MatchRow) : Prop :=
  table.Pairwise (fun a b => a.pair ≠ b.pair)

/-- The per-match save step of `reports.py::find_and_save_matches` (lines
362–412): orient the pair by the base report's type, look up an existing
row for that ordered pair, update the first such row in place only when
the freshly computed (unrounded) similarity is strictly greater than the
stored score, and otherwise — only when no row exists — insert a new row
with the similarity rounded to 4 digits, `matched_by = "ai_visual"`,
`status = "pending"`.  `new_id` stands for the database-assigned id of an
inserted row. -/
def saveMatchEmbedding (report_type report_id candidate_id : String) (similarity : ℚ)
    (new_id : String) (table : List MatchRow) : List MatchRow :=
  let lost := if report_type = "lost" then report_id else candidate_id
  let found := if report_type = "lost" then candidate_id else report_id
  match table.filter (fun r => r.lost_report_id == lost && r.found_report_id == found) with
  | [] => table ++ [⟨new_id, lost, found, pyRound 4 similarity, "ai_visual", "pending"⟩]
  | existing :: _ =>
    if similarity > existing.similarity_score then
      table.map (fun r =>
        if r.id = existing.id then
          { r with
            lost_report_id := lost
            found_report_id := found
            similarity_score := pyRound 4 similarity
            matched_by := "ai_visual"
            status := "pending" }
        else r)
    else table

/-- The per-match save step of
`direct_matches.py::_save_matches_to_db` (lines 252–299): the same
check-then-update-or-insert rule, except that the caller has already
rounded the score to 4 digits and the in-place update leaves the pair
columns untouched. -/
def saveMatchDirect (report_type report_id match_report_id : String)
    (similarity_score : ℚ) (new_id : String) (table : List MatchRow) : List MatchRow :=
  let lost := if report_type = "lost" then report_id else match_report_id
  let found := if report_type = "lost" then match_report_id else report_id
  match table.filter (fun r => r.lost_report_id == lost && r.found_report_id == found) with
  | [] => table ++ [⟨new_id, lost, found, similarity_score, "ai_visual", "pending"⟩]
  | existing :: _ =>
    if similarity_score > existing.similarity_score then
      table.map (fun r =>
        if r.id = existing.id then
          { r with
            similarity_score := similarity_score
            matched_by := "ai_visual"
            status := "pending" }
        else r)
    else table

/-- The top-1 match insert of `embeddings_supabase.py::search_image`
(lines 261–274): when results exist and a `lost_id` was supplied, a Match
row pairing `lost_id` with the most similar report is inserted
unconditionally — no check for an existing row for that pair is
performed. -/
def searchImageSaveTop1 (lost_id top1_report_id : String) (similarity : ℚ)
    (new_id : String) (table : List MatchRow) : List MatchRow :=
  table ++ [⟨new_id, lost_id, top1_report_id, pyRound 4 similarity, "ai_visual", "pending"⟩]

/-- Outcome of `PUT /matches/{match_id}/status`: either an
`HTTPException` with a status code or success, in both cases carrying the
state of the `matches` table when the handler returned. -/
inductive UpdateStatusOutcome where
  | err (code : ℕ) (table : List MatchRow)
  | ok (table : List MatchRow)
deriving DecidableEq

/-- `matches.py::update_match_status` (lines 380–409): reject any status
other than `accepted`/`rejected` with a 400 before touching the table;
otherwise update `{"status": status}` on the rows with the given id and
answer 404 when no row was affected. -/
def update_match_status (match_id status : String) (table : List MatchRow) :
    UpdateStatusOutcome :=
  if ¬ (status = "accepted" ∨ status = "rejected") then .err 400 table
  else
    let updated := table.map (fun r =>
      if r.id = match_id then { r with status := status } else r)
    if table.any (fun r => r.id == match_id) then .ok updated
    else .err 404 updated

end MatchesTable

section OperationalEndpoints

/-- The environment `hf-upload/main.py::supabase_status` runs in: whether
the module-level database client was initialized, and the outcome of a
1-row read (`.select("id").limit(1)`) against a table of the given name
(`.ok` when the query succeeds, `.error msg` when it raises with message
`msg`). -/
structure StatusEnv where
  clientConfigured : Bool
  tableRead : String → Except String Unit

/-- `hf-upload/main.py::supabase_status` (lines 242–257): with no client,
report `no_configurado`; otherwise perform the 1-row probe read against
the `image_analyses` table and report `conectado` on success or `error`
with the underlying message on failure.  Returns the `(status, message)`
pair of the JSON response. -/
def supabase_status (env : StatusEnv) : String × String :=
  if ¬ env.clientConfigured then
    ("no_configurado", "Variables de Supabase no encontradas")
  else
    match env.tableRead "image_analyses" with
    | .ok _ => ("conectado", "Conexión exitosa con Supabase")
    | .error e => ("error", "Error conectando con Supabase: " ++ e)

end OperationalEndpoints

section EmbeddingNormalization

/-- `np.linalg.norm` / `tensor.norm()`: the Euclidean norm of a vector. -/
noncomputable def l2norm (v : List ℝ) : ℝ := Real.sqrt (v.map (fun x => x ^ 2)).sum

/-- The normalization step of
`hf-upload/services/embeddings.py::_generate_embedding` (line 185):
`feats = feats / feats.norm(dim=-1, keepdim=True)` — every component is
divided by the vector's Euclidean norm, unconditionally. -/
noncomputable def localL2Normalize (feats : List ℝ) : List ℝ :=
  feats.map (fun x => x / l2norm feats)

/-- The normalization step of
`embeddings_hf_api.py::generate_embedding_from_bytes` (lines 137–140):
`norm = np.linalg.norm(embedding_array); if norm > 0: embedding_array =
embedding_array / norm` — the raw list received from the inference
endpoint is divided by its norm only when that norm is positive, and
returned unchanged otherwise. -/
noncomputable def remoteL2Normalize (raw : List ℝ) : List ℝ :=
  if l2norm raw > 0 then raw.map (fun x => x / l2norm raw) else raw

end EmbeddingNormalization

/-! ## Theorems -/

/-- At coincident points the haversine distance is `0`. -/
theorem haversine_km_self (lat lon : ℝ) : haversine_km lat lon lat lon = 0 := by
  simp [haversine_km, radiansOf]

/-- Haversine distances are nonnegative (`arcsin` of a square root). -/
theorem haversine_km_nonneg (lat1 lon1 lat2 lon2 : ℝ) :
    0 ≤ haversine_km lat1 lon1 lat2 lon2 := by
  have h : (0:ℝ) ≤ Real.arcsin (Real.sqrt (Real.sin (radiansOf (lat2 - lat1) / 2) ^ 2 +
      Real.cos (radiansOf lat1) * Real.cos (radiansOf lat2) *
        Real.sin (radiansOf (lon2 - lon1) / 2) ^ 2)) :=
    Real.arcsin_nonneg.2 (Real.sqrt_nonneg _)
  have : (0:ℝ) ≤ 2 * 6371.0 := by norm_num
  simpa [haversine_km] using mul_nonneg this h


/-- C2: `create_report` validates only the presence of the five required
fields; a payload with all of them present is inserted no matter how many
photos it carries.  A 6-photo payload with all required fields is
inserted; a 5-photo payload is inserted; the repository's own photo-limit
test payload (which omits `reporter_id`) is rejected with 400 for the
missing required field, not for the photo count. -/
theorem create_report_photo_limit_bug :
    create_report ⟨true, true, true, true, true,
      ["p0", "p1", "p2", "p3", "p4", "p5"]⟩ =
      .inserted ["p0", "p1", "p2", "p3", "p4", "p5"] ∧
    (["p0", "p1", "p2", "p3", "p4", "p5"] : List String).length = 6 ∧
    create_report ⟨true, true, true, true, true, ["p0", "p1", "p2", "p3", "p4"]⟩ =
      .inserted ["p0", "p1", "p2", "p3", "p4"] ∧
    create_report ⟨true, false, true, true, true,
      ["p0", "p1", "p2", "p3", "p4", "p5"]⟩ = .rejected 400 := by
  refine ⟨rfl, rfl, rfl, rfl⟩

/-- C6: `update_match_status` rejects a status outside
`{accepted, rejected}` with 400 before any write; with a valid status it
answers 404 on an id that matches no row (and the table is unchanged);
and on an existing row it changes only the `status` field of the matching
rows, leaving `similarity_score` and every other field (and every other
row) untouched. -/
theorem update_match_status_spec (match_id status : String) (table : List MatchRow) :
    (¬ (status = "accepted" ∨ status = "rejected") →
      update_match_status match_id status table = .err 400 table) ∧
    ((status = "accepted" ∨ status = "rejected") → (∀ r ∈ table, r.id ≠ match_id) →
      update_match_status match_id status table = .err 404 table) ∧
    ((status = "accepted" ∨ status = "rejected") →
      ∀ t, update_match_status match_id status table = .ok t →
        t.length = table.length ∧
        ∀ i : Fin table.length, ∃ hi : (i : ℕ) < t.length,
          (t.get ⟨i, hi⟩).id = (table.get i).id ∧
          (t.get ⟨i, hi⟩).lost_report_id = (table.get i).lost_report_id ∧
          (t.get ⟨i, hi⟩).found_report_id = (table.get i).found_report_id ∧
          (t.get ⟨i, hi⟩).similarity_score = (table.get i).similarity_score ∧
          (t.get ⟨i, hi⟩).matched_by = (table.get i).matched_by ∧
          ((table.get i).id = match_id → (t.get ⟨i, hi⟩).status = status) ∧
          ((table.get i).id ≠ match_id → t.get ⟨i, hi⟩ = table.get i)) := by
  refine ⟨fun hbad => ?_, fun hok hnone => ?_, fun hok t ht => ?_⟩
  · simp only [update_match_status, if_pos hbad]
  · have hmap : table.map (fun r => if r.id = match_id then { r with status := status } else r)
        = table := by
      conv_rhs => rw [← List.map_id table]
      refine List.map_congr_left (fun r hr => ?_)
      simp [hnone r hr]
    have hany : table.any (fun r => r.id == match_id) = false := by
      simp only [List.any_eq_false]
      intro r hr
      simp [hnone r hr]
    simp only [update_match_status, if_neg (not_not_intro hok), hmap, hany]
    simp
  · have hupd : update_match_status match_id status table =
        .ok (table.map (fun r => if r.id = match_id then { r with status := status } else r)) ∨
        ∃ t', update_match_status match_id status table = .err 404 t' := by
      simp only [update_match_status, if_neg (not_not_intro hok)]
      by_cases hany : table.any (fun r => r.id == match_id)
      · left; rw [if_pos hany]
      · right; exact ⟨_, by rw [if_neg hany]⟩
    rcases hupd with hupd | ⟨t', hupd⟩
    · rw [ht] at hupd
      have htEq : t = table.map
          (fun r => if r.id = match_id then { r with status := status } else r) := by
        injection hupd with h
      subst htEq
      refine ⟨by simp, fun i => ?_⟩
      have hi : (i : ℕ) < (table.map
          (fun r => if r.id = match_id then { r with status := status } else r)).length := by
        simp only [List.length_map]
        exact i.isLt
      refine ⟨hi, ?_⟩
      have hget : (table.map
          (fun r => if r.id = match_id then { r with status := status } else r)).get ⟨i, hi⟩
          = if (table.get i).id = match_id then
              { table.get i with status := status } else table.get i := by
        simp
      by_cases hcase : (table.get i).id = match_id
      · rw [hget, if_pos hcase]
        refine ⟨rfl, rfl, rfl, rfl, rfl, fun _ => rfl, fun hne => absurd hcase hne⟩
      · rw [hget, if_neg hcase]
        exact ⟨rfl, rfl, rfl, rfl, rfl, fun h => absurd h hcase, fun _ => rfl⟩
    · rw [ht] at hupd
      exact absurd hupd (by simp)

/-- C6 witness: concrete runs of `update_match_status` on a one-row table:
an invalid status is rejected with 400, an unknown id gives 404 with the
table unchanged, and accepting the existing pending match flips only its
status while `similarity_score` stays `1`. -/
theorem update_match_status_witness :
    update_match_status "m1" "banana" [⟨"m1", "L", "F", 1, "ai_visual", "pending"⟩] =
      .err 400 [⟨"m1", "L", "F", 1, "ai_visual", "pending"⟩] ∧
    update_match_status "m2" "accepted" [⟨"m1", "L", "F", 1, "ai_visual", "pending"⟩] =
      .err 404 [⟨"m1", "L", "F", 1, "ai_visual", "pending"⟩] ∧
    update_match_status "m1" "accepted" [⟨"m1", "L", "F", 1, "ai_visual", "pending"⟩] =
      .ok [⟨"m1", "L", "F", 1, "ai_visual", "accepted"⟩] := by
  refine ⟨?_, ?_, by rfl⟩
  · exact (update_match_status_spec "m1" "banana" _).1 (by decide)
  · exact (update_match_status_spec "m2" "accepted" _).2.1 (Or.inl rfl) (by decide)

/-- C8 counterexample: an environment whose client is configured and whose
1-row read against the `reports` table succeeds, yet the endpoint reports
`error` — because `supabase_status` probes the `image_analyses` table, not
the reports table. -/
theorem supabase_status_counterexample :
    (StatusEnv.tableRead
      ⟨true, fun t => if t = "reports" then .ok () else .error "probe failure"⟩ "reports"
        = .ok ()) ∧
    (supabase_status
      ⟨true, fun t => if t = "reports" then .ok () else .error "probe failure"⟩).1
        = "error" ∧
    (supabase_status
      ⟨true, fun t => if t = "reports" then .ok () else .error "probe failure"⟩).1
        ≠ "conectado" := by
  refine ⟨by simp, ?_, ?_⟩ <;> simp [supabase_status]

/-- C8 (amended): with no client, `supabase_status` reports
`no_configurado`; otherwise it performs the 1-row probe read against the
`image_analyses` table and reports `conectado` when that read succeeds,
or `error` carrying the underlying message when it raises. -/
theorem supabase_status_spec (env : StatusEnv) :
    (env.clientConfigured = false →
      supabase_status env = ("no_configurado", "Variables de Supabase no encontradas")) ∧
    (env.clientConfigured = true → env.tableRead "image_analyses" = .ok () →
      supabase_status env = ("conectado", "Conexión exitosa con Supabase")) ∧
    (env.clientConfigured = true → ∀ e, env.tableRead "image_analyses" = .error e →
      supabase_status env = ("error", "Error conectando con Supabase: " ++ e)) := by
  refine ⟨fun hno => ?_, fun hyes hok => ?_, fun hyes e herr => ?_⟩
  · simp [supabase_status, hno]
  · simp [supabase_status, hyes, hok]
  · simp [supabase_status, hyes, herr]

/-- C8 witness: the three branches of `supabase_status_spec` at concrete
environments. -/
theorem supabase_status_spec_witness :
    supabase_status ⟨false, fun _ => .ok ()⟩ =
      ("no_configurado", "Variables de Supabase no encontradas") ∧
    supabase_status ⟨true, fun _ => .ok ()⟩ =
      ("conectado", "Conexión exitosa con Supabase") ∧
    supabase_status ⟨true, fun _ => .error "db down"⟩ =
      ("error", "Error conectando con Supabase: db down") := by
  refine ⟨?_, ?_, ?_⟩
  · exact (supabase_status_spec ⟨false, fun _ => .ok ()⟩).1 rfl
  · exact (supabase_status_spec ⟨true, fun _ => .ok ()⟩).2.1 rfl rfl
  · exact (supabase_status_spec ⟨true, fun _ => .error "db down"⟩).2.2 rfl "db down" rfl

/-- C9 counterexample: a `labels` array containing only the empty dict
`{}` — an entry with neither a non-empty `label` nor a non-empty
`description` field — produces the empty label set: the falsy entry is
skipped by the comprehension's `if it` filter, so the empty string is not
included and such an entry contributes nothing to any overlap. -/
theorem label_set_falsy_entry_counterexample :
    label_set (.dictWithList [.falsy]) = ∅ ∧
    "" ∉ label_set (.dictWithList [.falsy]) := by
  refine ⟨rfl, by simp [label_set]⟩

/-- C9 (amended): for every truthy `labels` entry with neither a non-empty
`label` nor a non-empty `description` field, `label_set` maps the entry to
the empty string and includes `""` in the set; hence two reports each
carrying such an entry have a label overlap of at least 1 and the
auto-match score, `overlap * 10 - d * 0.2`, receives the overlap's 10
points even though the reports share no actual label text. -/
theorem label_set_unlabeled_entry_spec
    (items1 items2 : List LabelItem) (l1 d1 l2 d2 : Option String) (dist : ℝ)
    (h1 : LabelItem.entry l1 d1 ∈ items1) (h2 : LabelItem.entry l2 d2 ∈ items2)
    (hl1 : l1.getD "" = "") (hd1 : d1.getD "" = "")
    (hl2 : l2.getD "" = "") (hd2 : d2.getD "" = "") :
    "" ∈ label_set (.dictWithList items1) ∧
    "" ∈ label_set (.dictWithList items2) ∧
    1 ≤ ((label_set (.dictWithList items1)) ∩ (label_set (.dictWithList items2))).card ∧
    matchScore ((label_set (.dictWithList items1) ∩ label_set (.dictWithList items2)).card)
        dist =
      (((label_set (.dictWithList items1) ∩ label_set (.dictWithList items2)).card : ℝ)) * 10
        - dist * 0.2 ∧
    10 - dist * 0.2 ≤
      matchScore ((label_set (.dictWithList items1) ∩ label_set (.dictWithList items2)).card)
        dist := by
  have hempty : ∀ (l d : Option String), l.getD "" = "" → d.getD "" = "" →
      pyLower (labelOrDescription l d) = "" := by
    intro l d hl hd
    have htl : truthyStr l = none := by
      cases l with
      | none => rfl
      | some s =>
        simp only [Option.getD] at hl
        simp [truthyStr, hl]
    have htd : truthyStr d = none := by
      cases d with
      | none => rfl
      | some s =>
        simp only [Option.getD] at hd
        simp [truthyStr, hd]
    simp [labelOrDescription, htl, htd]
    rfl
  have hmem : ∀ (items : List LabelItem) (l d : Option String),
      LabelItem.entry l d ∈ items → l.getD "" = "" → d.getD "" = "" →
      "" ∈ label_set (.dictWithList items) := by
    intro items l d hmem hl hd
    simp only [label_set, List.mem_toFinset, List.mem_filterMap]
    exact ⟨.entry l d, hmem, by simp [hempty l d hl hd]⟩
  have hin1 := hmem items1 l1 d1 h1 hl1 hd1
  have hin2 := hmem items2 l2 d2 h2 hl2 hd2
  have hcard : 1 ≤
      ((label_set (.dictWithList items1)) ∩ (label_set (.dictWithList items2))).card := by
    have : "" ∈ (label_set (.dictWithList items1)) ∩ (label_set (.dictWithList items2)) :=
      Finset.mem_inter.2 ⟨hin1, hin2⟩
    exact Finset.card_pos.2 ⟨"", this⟩
  refine ⟨hin1, hin2, hcard, rfl, ?_⟩
  have hcardR : (1 : ℝ) ≤
      ((label_set (.dictWithList items1) ∩ label_set (.dictWithList items2)).card : ℝ) := by
    exact_mod_cast hcard
  have := mul_le_mul_of_nonneg_right hcardR (by norm_num : (0:ℝ) ≤ 10)
  simp only [matchScore]
  linarith

/-- C9 witness: two concrete label payloads, one whose entry has no label
fields at all and one whose fields are empty strings; both label sets
contain `""`, the overlap is at least 1, and at distance 5 km the score
formula yields at least `10 - 5 * 0.2 = 9`. -/
theorem label_set_unlabeled_entry_witness :
    "" ∈ label_set (.dictWithList [.entry none none]) ∧
    "" ∈ label_set (.dictWithList [.entry (some "") (some "")]) ∧
    1 ≤ ((label_set (.dictWithList [.entry none none])) ∩
      (label_set (.dictWithList [.entry (some "") (some "")]))).card ∧
    matchScore ((label_set (.dictWithList [.entry none none]) ∩
        label_set (.dictWithList [.entry (some "") (some "")])).card) 5 =
      (((label_set (.dictWithList [.entry none none]) ∩
        label_set (.dictWithList [.entry (some "") (some "")])).card : ℝ)) * 10 - 5 * 0.2 ∧
    10 - (5 : ℝ) * 0.2 ≤
      matchScore ((label_set (.dictWithList [.entry none none]) ∩
        label_set (.dictWithList [.entry (some "") (some "")])).card) 5 :=
  label_set_unlabeled_entry_spec [.entry none none] [.entry (some "") (some "")]
    none none (some "") (some "") 5 (by simp) (by simp) rfl rfl rfl rfl

/-- Sum of squares of a componentwise-scaled vector. -/
theorem sum_sq_map_div (v : List ℝ) (c : ℝ) :
    ((v.map (fun x => x / c)).map (fun x => x ^ 2)).sum =
      (v.map (fun x => x ^ 2)).sum / c ^ 2 := by
  induction v with
  | nil => simp
  | cons a rest ih =>
    simp only [List.map_cons, List.sum_cons, ih, div_pow]
    ring

/-- The sum of squared components is nonnegative. -/
theorem sum_sq_nonneg (v : List ℝ) : 0 ≤ (v.map (fun x => x ^ 2)).sum := by
  induction v with
  | nil => simp
  | cons a rest ih =>
    simp only [List.map_cons, List.sum_cons]
    positivity

/-- Dividing a vector by a positive constant scales its Euclidean norm by
that constant. -/
theorem l2norm_map_div (v : List ℝ) (c : ℝ) (hc : 0 < c) :
    l2norm (v.map (fun x => x / c)) = l2norm v / c := by
  simp only [l2norm, sum_sq_map_div]
  rw [Real.sqrt_div (sum_sq_nonneg v), Real.sqrt_sq hc.le]

/-- C7 counterexample: the remote embedding backend returns a zero raw
vector unchanged (the `if norm > 0` guard fails), so the returned
embedding has Euclidean norm `0`, not `1`. -/
theorem remote_zero_vector_counterexample :
    remoteL2Normalize [0, 0] = [0, 0] ∧
    l2norm (remoteL2Normalize [0, 0]) = 0 ∧
    l2norm (remoteL2Normalize [0, 0]) ≠ 1 := by
  have hz : l2norm [(0 : ℝ), 0] = 0 := by
    simp [l2norm]
  have hguard : remoteL2Normalize [(0 : ℝ), 0] = [0, 0] := by
    simp [remoteL2Normalize, hz]
  exact ⟨hguard, by rw [hguard, hz], by rw [hguard, hz]; norm_num⟩

/-- C7 (amended): whenever the feature/raw vector has positive Euclidean
norm, both the local backend's normalization (`feats / feats.norm()`) and
the remote backend's guarded normalization return a unit-norm vector; the
exception is the zero vector, which the remote backend returns unchanged
(see the counterexample). -/
theorem l2_normalization_spec (v : List ℝ) (h : 0 < l2norm v) :
    l2norm (localL2Normalize v) = 1 ∧ l2norm (remoteL2Normalize v) = 1 := by
  have hl : l2norm (v.map (fun x => x / l2norm v)) = 1 := by
    rw [l2norm_map_div v (l2norm v) h]
    exact div_self (ne_of_gt h)
  refine ⟨hl, ?_⟩
  rw [remoteL2Normalize, if_pos h]
  exact hl

/-- C7 witness: the vector `[3, 4]` has norm `5 > 0` and both backends
normalize it to a unit-norm vector. -/
theorem l2_normalization_witness :
    0 < l2norm [3, 4] ∧
    l2norm (localL2Normalize [3, 4]) = 1 ∧ l2norm (remoteL2Normalize [3, 4]) = 1 := by
  have h5 : l2norm [(3 : ℝ), 4] = 5 := by
    simp only [l2norm, List.map_cons, List.map_nil, List.sum_cons, List.sum_nil]
    rw [show (3 : ℝ) ^ 2 + (4 ^ 2 + 0) = 5 ^ 2 by norm_num]
    exact Real.sqrt_sq (by norm_num)
  have hpos : 0 < l2norm [(3 : ℝ), 4] := by rw [h5]; norm_num
  exact ⟨hpos, (l2_normalization_spec [3, 4] hpos).1, (l2_normalization_spec [3, 4] hpos).2⟩

/-- Mapping a pair-preserving function over a match table preserves the
one-row-per-pair invariant. -/
theorem uniquePairs_map_of_pair_eq {l : List MatchRow} {f : MatchRow → MatchRow}
    (h : ∀ r ∈ l, (f r).pair = r.pair) (hu : uniquePairs l) : uniquePairs (l.map f) := by
  rw [uniquePairs, List.pairwise_map]
  exact hu.imp_of_mem (fun ha hb hne => by rw [h _ ha, h _ hb]; exact hne)

/-- Appending a row whose pair is new preserves the invariant. -/
theorem uniquePairs_append_one {l : List MatchRow} {x : MatchRow}
    (hu : uniquePairs l) (hx : ∀ r ∈ l, r.pair ≠ x.pair) : uniquePairs (l ++ [x]) := by
  rw [uniquePairs, List.pairwise_append]
  refine ⟨hu, List.pairwise_singleton _ _, fun a ha b hb => ?_⟩
  rcases List.mem_singleton.1 hb with rfl
  exact hx a ha

/-- An empty pair-filter result means no row of the table has that pair. -/
theorem pair_of_filter_eq_nil {table : List MatchRow} {L F : String}
    (h : table.filter
      (fun r => r.lost_report_id == L && r.found_report_id == F) = []) :
    ∀ r ∈ table, r.pair ≠ (L, F) := by
  intro r hr hpair
  have hprop := List.filter_eq_nil_iff.1 h r hr
  have h1 : r.lost_report_id = L := congrArg Prod.fst hpair
  have h2 : r.found_report_id = F := congrArg Prod.snd hpair
  simp [h1, h2] at hprop

/-- The head of a nonempty pair-filter result is a table row with that
pair. -/
theorem pair_of_filter_head {table : List MatchRow} {L F : String} {e : MatchRow}
    {rest : List MatchRow}
    (h : table.filter
      (fun r => r.lost_report_id == L && r.found_report_id == F) = e :: rest) :
    e ∈ table ∧ e.lost_report_id = L ∧ e.found_report_id = F := by
  have he : e ∈ table.filter
      (fun r => r.lost_report_id == L && r.found_report_id == F) := by
    rw [h]; exact List.mem_cons_self _ _
  have hmf := List.mem_filter.1 he
  have hb := hmf.2
  simp only [Bool.and_eq_true, beq_iff_eq] at hb
  exact ⟨hmf.1, hb.1, hb.2⟩

/-- `find_and_save_matches`'s save step preserves the one-row-per-pair
invariant (given database-unique row ids). -/
theorem saveMatchEmbedding_uniquePairs
    (report_type report_id candidate_id new_id : String) (s : ℚ) (table : List MatchRow)
    (hids : (table.map MatchRow.id).Nodup) (hu : uniquePairs table) :
    uniquePairs (saveMatchEmbedding report_type report_id candidate_id s new_id table) := by
  simp only [saveMatchEmbedding]
  split
  next hfilter =>
    exact uniquePairs_append_one hu (fun r hr => pair_of_filter_eq_nil hfilter r hr)
  next e rest hfilter =>
    split
    next hgt =>
      refine uniquePairs_map_of_pair_eq (fun r hr => ?_) hu
      by_cases hid : r.id = e.id
      · obtain ⟨heMem, heL, heF⟩ := pair_of_filter_head hfilter
        have hre : r = e := List.inj_on_of_nodup_map hids hr heMem hid
        subst hre
        simp [MatchRow.pair, heL, heF]
      · simp [MatchRow.pair, hid]
    next hle => exact hu

/-- `_save_matches_to_db`'s save step preserves the one-row-per-pair
invariant (its in-place update never touches the pair columns). -/
theorem saveMatchDirect_uniquePairs
    (report_type report_id match_report_id new_id : String) (s : ℚ) (table : List MatchRow)
    (hu : uniquePairs table) :
    uniquePairs (saveMatchDirect report_type report_id match_report_id s new_id table) := by
  simp only [saveMatchDirect]
  split
  next hfilter =>
    exact uniquePairs_append_one hu (fun r hr => pair_of_filter_eq_nil hfilter r hr)
  next e rest hfilter =>
    split
    next hgt =>
      refine uniquePairs_map_of_pair_eq (fun r hr => ?_) hu
      by_cases hid : r.id = e.id <;> simp [MatchRow.pair, hid]
    next hle => exact hu

/-- C1 counterexample: the search-by-image top-1 insert does not check for
an existing row: starting from a table that already holds the ordered pair
`("L1", "F1")`, `searchImageSaveTop1` produces a second row for the same
pair, violating the claimed invariant. -/
theorem search_image_duplicate_pair_counterexample :
    uniquePairs [⟨"m1", "L1", "F1", 1, "ai_visual", "pending"⟩] ∧
    ¬ uniquePairs (searchImageSaveTop1 "L1" "F1" 1 "m2"
      [⟨"m1", "L1", "F1", 1, "ai_visual", "pending"⟩]) ∧
    ((searchImageSaveTop1 "L1" "F1" 1 "m2"
        [⟨"m1", "L1", "F1", 1, "ai_visual", "pending"⟩]).filter
      (fun r => r.lost_report_id == "L1" && r.found_report_id == "F1")).length = 2 := by
  refine ⟨?_, ?_, ?_⟩
  · simp [uniquePairs]
  · simp [uniquePairs, searchImageSaveTop1, MatchRow.pair]
  · simp [searchImageSaveTop1]

/-- C1 (amended): the save steps of automatic match discovery
(`find_and_save_matches`) and of the direct-match finder
(`_save_matches_to_db`) check for an existing row for the ordered pair and
update it in place only on a strictly greater score, so both preserve the
one-row-per-pair invariant; and running the match-discovery save twice for
a fresh pair with an improving score leaves exactly one row for that pair,
carrying the higher (4-digit-rounded) score.  The search-by-image top-1
insert, by contrast, performs no such check (see the counterexample). -/
theorem matches_dedup_spec
    (report_type report_id candidate_id new_id1 new_id2 L F : String)
    (s1 s2 : ℚ) (table : List MatchRow)
    (hids : (table.map MatchRow.id).Nodup)
    (hu : uniquePairs table)
    (hL : L = if report_type = "lost" then report_id else candidate_id)
    (hF : F = if report_type = "lost" then candidate_id else report_id)
    (hnone : ∀ r ∈ table, r.pair ≠ (L, F))
    (hfresh : new_id1 ∉ table.map MatchRow.id)
    (hgt : s2 > pyRound 4 s1) :
    uniquePairs (saveMatchEmbedding report_type report_id candidate_id s1 new_id1 table) ∧
    uniquePairs (saveMatchDirect report_type report_id candidate_id s1 new_id1 table) ∧
    saveMatchEmbedding report_type report_id candidate_id s2 new_id2
        (saveMatchEmbedding report_type report_id candidate_id s1 new_id1 table) =
      table ++ [⟨new_id1, L, F, pyRound 4 s2, "ai_visual", "pending"⟩] ∧
    ((saveMatchEmbedding report_type report_id candidate_id s2 new_id2
        (saveMatchEmbedding report_type report_id candidate_id s1 new_id1 table)).filter
      (fun r => r.lost_report_id == L && r.found_report_id == F)).length = 1 ∧
    uniquePairs (saveMatchEmbedding report_type report_id candidate_id s2 new_id2
      (saveMatchEmbedding report_type report_id candidate_id s1 new_id1 table)) ∧
    (saveMatchEmbedding report_type report_id candidate_id s2 new_id2
      (saveMatchEmbedding report_type report_id candidate_id s1 new_id1 table)).length =
      table.length + 1 := by
  have hfilt1 : table.filter
      (fun r => r.lost_report_id == L && r.found_report_id == F) = [] := by
    rw [List.filter_eq_nil_iff]
    intro r hr
    have := hnone r hr
    simp only [Bool.and_eq_true, beq_iff_eq, not_and]
    intro h1 h2
    exact this (by simp [MatchRow.pair, h1, h2])
  have hrow1 : saveMatchEmbedding report_type report_id candidate_id s1 new_id1 table =
      table ++ [⟨new_id1, L, F, pyRound 4 s1, "ai_visual", "pending"⟩] := by
    simp only [saveMatchEmbedding, ← hL, ← hF]
    rw [hfilt1]
  have hfilt2 : (table ++ [(⟨new_id1, L, F, pyRound 4 s1, "ai_visual",
        "pending"⟩ : MatchRow)]).filter
      (fun r => r.lost_report_id == L && r.found_report_id == F) =
      [(⟨new_id1, L, F, pyRound 4 s1, "ai_visual", "pending"⟩ : MatchRow)] := by
    rw [List.filter_append, hfilt1]
    simp
  have hmapfix : ∀ r ∈ table,
      (if r.id = new_id1 then
        ({ r with
          lost_report_id := L
          found_report_id := F
          similarity_score := pyRound 4 s2
          matched_by := "ai_visual"
          status := "pending" } : MatchRow)
      else r) = r := by
    intro r hr
    have : r.id ≠ new_id1 := by
      intro hcontra
      exact hfresh (List.mem_map.2 ⟨r, hr, hcontra⟩)
    simp [this]
  have ht2 : saveMatchEmbedding report_type report_id candidate_id s2 new_id2
      (saveMatchEmbedding report_type report_id candidate_id s1 new_id1 table) =
      table ++ [⟨new_id1, L, F, pyRound 4 s2, "ai_visual", "pending"⟩] := by
    rw [hrow1]
    simp only [saveMatchEmbedding, ← hL, ← hF]
    rw [hfilt2]
    split
    next heq => exact absurd heq (by simp)
    next existing tail heq =>
      injection heq with h1 h2
      subst h1
      rw [if_pos hgt, List.map_append]
      congr 1
      · conv_rhs => rw [← List.map_id table]
        exact List.map_congr_left hmapfix
      · simp
  refine ⟨saveMatchEmbedding_uniquePairs _ _ _ _ _ _ hids hu,
    saveMatchDirect_uniquePairs _ _ _ _ _ _ hu, ht2, ?_, ?_, ?_⟩
  · rw [ht2, List.filter_append, hfilt1]
    simp
  · rw [ht2]
    exact uniquePairs_append_one hu (fun r hr => hnone r hr)
  · rw [ht2]
    simp

/-- C1 witness: two runs of the match-discovery save step on an initially
empty table with an improved score (`0` then `1`) leave exactly one row
for the pair `("L1", "F1")`, carrying the higher rounded score. -/
theorem matches_dedup_spec_witness :
    ((([] : List MatchRow).map MatchRow.id).Nodup ∧ (1 : ℚ) > pyRound 4 0) ∧
    uniquePairs (saveMatchEmbedding "lost" "L1" "F1" 0 "m1" []) ∧
    uniquePairs (saveMatchDirect "lost" "L1" "F1" 0 "m1" []) ∧
    saveMatchEmbedding "lost" "L1" "F1" 1 "m2"
        (saveMatchEmbedding "lost" "L1" "F1" 0 "m1" []) =
      [⟨"m1", "L1", "F1", pyRound 4 1, "ai_visual", "pending"⟩] ∧
    ((saveMatchEmbedding "lost" "L1" "F1" 1 "m2"
        (saveMatchEmbedding "lost" "L1" "F1" 0 "m1" [])).filter
      (fun r => r.lost_report_id == "L1" && r.found_report_id == "F1")).length = 1 := by
  have h := matches_dedup_spec "lost" "L1" "F1" "m1" "m2" "L1" "F1" 0 1 []
    (by simp) (by simp [uniquePairs]) (by simp) (by simp)
    (by simp) (by simp) (by norm_num [pyRound])
  exact ⟨⟨by simp, by norm_num [pyRound]⟩, h.1, h.2.1, h.2.2.1, h.2.2.2.1⟩

/-- Characterization of the nearby-candidate loop: an entry is produced
exactly for the reports whose location parses and whose haversine distance
is within the radius, and it carries the 2-digit-rounded distance. -/
theorem mem_nearbyEntries {lat lng radius_km : ℝ} {l : List Report} {e : NearbyEntry} :
    e ∈ nearbyEntries lat lng radius_km l ↔
      ∃ r ∈ l, ∃ la lo, _extract_coords r.location = some (la, lo) ∧
        haversine_km lat lng la lo ≤ radius_km ∧
        e = ⟨r, pyRound 2 (haversine_km lat lng la lo)⟩ := by
  induction l with
  | nil => simp [nearbyEntries]
  | cons r rest ih =>
    simp only [nearbyEntries]
    rcases hx : _extract_coords r.location with _ | ⟨la, lo⟩
    · show (e ∈ nearbyEntries lat lng radius_km rest) ↔ _
      rw [ih]
      constructor
      · rintro ⟨r', hr', hP⟩
        exact ⟨r', List.mem_cons_of_mem _ hr', hP⟩
      · rintro ⟨r', hr', la, lo, hco, hrest⟩
        rcases List.mem_cons.1 hr' with rfl | hr'
        · rw [hx] at hco
          exact absurd hco (by simp)
        · exact ⟨r', hr', la, lo, hco, hrest⟩
    · show (e ∈ if haversine_km lat lng la lo ≤ radius_km then
          (⟨r, pyRound 2 (haversine_km lat lng la lo)⟩ : NearbyEntry) ::
            nearbyEntries lat lng radius_km rest
        else nearbyEntries lat lng radius_km rest) ↔ _
      by_cases hd : haversine_km lat lng la lo ≤ radius_km
      · rw [if_pos hd]
        constructor
        · intro hmem
          rcases List.mem_cons.1 hmem with rfl | hmem
          · exact ⟨r, List.mem_cons_self _ _, la, lo, hx, hd, rfl⟩
          · obtain ⟨r', hr', la', lo', hco, hdist, he⟩ := ih.1 hmem
            exact ⟨r', List.mem_cons_of_mem _ hr', la', lo', hco, hdist, he⟩
        · rintro ⟨r', hr', la', lo', hco, hdist, he⟩
          rcases List.mem_cons.1 hr' with rfl | hr'
          · rw [hx] at hco
            obtain ⟨rfl, rfl⟩ : la = la' ∧ lo = lo' := by
              have := Option.some.inj hco
              exact ⟨congrArg Prod.fst this, congrArg Prod.snd this⟩
            exact List.mem_cons.2 (Or.inl he)
          · exact List.mem_cons.2 (Or.inr (ih.2 ⟨r', hr', la', lo', hco, hdist, he⟩))
      · rw [if_neg hd, ih]
        constructor
        · rintro ⟨r', hr', hP⟩
          exact ⟨r', List.mem_cons_of_mem _ hr', hP⟩
        · rintro ⟨r', hr', la', lo', hco, hdist, he⟩
          rcases List.mem_cons.1 hr' with rfl | hr'
          · rw [hx] at hco
            obtain ⟨rfl, rfl⟩ : la = la' ∧ lo = lo' := by
              have := Option.some.inj hco
              exact ⟨congrArg Prod.fst this, congrArg Prod.snd this⟩
            exact absurd hdist hd
          · exact ⟨r', hr', la', lo', hco, hdist, he⟩

/-- C3: `GET /reports/nearby` returns exactly the active reports whose
location parses (PostGIS or GeoJSON) and whose haversine distance from
the query point is at most `radius_km`, each carrying the computed
`distance_km` (rounded to 2 digits); the list is sorted ascending by that
distance, and the reported count is its length.  Reports with missing or
unparseable locations are excluded. -/
theorem get_nearby_reports_spec (lat lng radius_km : ℝ) (table : List Report) :
    (∀ e : NearbyEntry, e ∈ (get_nearby_reports lat lng radius_km table).1 ↔
      ∃ r ∈ table, r.status = "active" ∧
        ∃ la lo, _extract_coords r.location = some (la, lo) ∧
          haversine_km lat lng la lo ≤ radius_km ∧
          e = ⟨r, pyRound 2 (haversine_km lat lng la lo)⟩) ∧
    (get_nearby_reports lat lng radius_km table).1.Sorted
      (fun a b => a.distance_km ≤ b.distance_km) ∧
    (get_nearby_reports lat lng radius_km table).2 =
      (get_nearby_reports lat lng radius_km table).1.length := by
  refine ⟨fun e => ?_, ?_, rfl⟩
  · simp only [get_nearby_reports]
    rw [List.Perm.mem_iff (List.mergeSort_perm _ _), mem_nearbyEntries]
    constructor
    · rintro ⟨r, hr, la, lo, hco, hd, he⟩
      have hmf := List.mem_filter.1 hr
      refine ⟨r, hmf.1, ?_, la, lo, hco, hd, he⟩
      have := hmf.2
      simpa using this
    · rintro ⟨r, hr, hst, la, lo, hco, hd, he⟩
      exact ⟨r, List.mem_filter.2 ⟨hr, by simp [hst]⟩, la, lo, hco, hd, he⟩
  · simp only [get_nearby_reports]
    have hp := @List.sorted_mergeSort NearbyEntry
      (fun a b => decide (a.distance_km ≤ b.distance_km))
      (fun a b c hab hbc => by
        simp only [decide_eq_true_eq] at *
        exact le_trans hab hbc)
      (fun a b => by
        simp only [Bool.or_eq_true, decide_eq_true_eq]
        exact le_total a.distance_km b.distance_km)
      (nearbyEntries lat lng radius_km (table.filter (fun r => r.status == "active")))
    exact hp.imp (fun h => of_decide_eq_true h)

/-- Soundness of the auto-match candidate loop: every produced entry comes
from a candidate with parseable coordinates that passed the bounding-box
pre-filter and the exact radius check, and its recorded overlap, distance
and score are exactly the code's formulas. -/
theorem scoreCandidates_ok_sound {base_lat base_lon pad radius_km : ℝ}
    {base_labels : Finset String} {cs : List Report} {l : List MatchEntry}
    (h : scoreCandidates base_lat base_lon pad radius_km base_labels cs = .ok l) :
    ∀ e ∈ l, ∃ c ∈ cs, ∃ lat lon, _coords c.location = .ok (some (lat, lon)) ∧
      (base_lat - pad ≤ lat ∧ lat ≤ base_lat + pad ∧
        base_lon - pad ≤ lon ∧ lon ≤ base_lon + pad) ∧
      haversine_km base_lat base_lon lat lon ≤ radius_km ∧
      e.candidateId = c.id ∧
      e.label_overlap = (base_labels ∩ label_set c.labels).card ∧
      e.distance_km = pyRound 2 (haversine_km base_lat base_lon lat lon) ∧
      e.score = pyRound 3 (matchScore ((base_labels ∩ label_set c.labels).card)
        (haversine_km base_lat base_lon lat lon)) := by
  induction cs generalizing l with
  | nil =>
    simp only [scoreCandidates, Except.ok.injEq] at h
    subst h
    intro e he
    simp at he
  | cons c rest ih =>
    simp only [scoreCandidates] at h
    rcases hc : _coords c.location with err | pt <;> rw [hc] at h
    · simp at h
    · rcases hrest : scoreCandidates base_lat base_lon pad radius_km base_labels rest with
        err2 | tail <;> rw [hrest] at h
      · simp at h
      · rcases pt with _ | ⟨lat, lon⟩
        · have htl : tail = l := by injection h
          subst htl
          intro e he
          obtain ⟨c', hc', rest'⟩ := ih hrest e he
          exact ⟨c', List.mem_cons_of_mem _ hc', rest'⟩
        · simp only at h
          split_ifs at h with h1 h2
          · have htl : tail = l := by injection h
            subst htl
            intro e he
            obtain ⟨c', hc', rest'⟩ := ih hrest e he
            exact ⟨c', List.mem_cons_of_mem _ hc', rest'⟩
          · have hcons : (⟨c.id, pyRound 2 (haversine_km base_lat base_lon lat lon),
                (base_labels ∩ label_set c.labels).card,
                pyRound 3 (matchScore ((base_labels ∩ label_set c.labels).card)
                  (haversine_km base_lat base_lon lat lon))⟩ : MatchEntry) :: tail = l := by
              injection h
            subst hcons
            intro e he
            rcases List.mem_cons.1 he with rfl | he
            · exact ⟨c, List.mem_cons_self _ _, lat, lon, hc, h1, not_lt.1 h2,
                rfl, rfl, rfl, rfl⟩
            · obtain ⟨c', hc', rest'⟩ := ih hrest e he
              exact ⟨c', List.mem_cons_of_mem _ hc', rest'⟩
          · have htl : tail = l := by injection h
            subst htl
            intro e he
            obtain ⟨c', hc', rest'⟩ := ih hrest e he
            exact ⟨c', List.mem_cons_of_mem _ hc', rest'⟩

/-- The auto-match candidate loop produces exactly one entry per candidate
that passes the geographic filter. -/
theorem scoreCandidates_ok_length {base_lat base_lon pad radius_km : ℝ}
    {base_labels : Finset String} {cs : List Report} {l : List MatchEntry}
    (h : scoreCandidates base_lat base_lon pad radius_km base_labels cs = .ok l) :
    l.length = (cs.filter (passesGeoFilter base_lat base_lon pad radius_km)).length := by
  induction cs generalizing l with
  | nil =>
    simp only [scoreCandidates, Except.ok.injEq] at h
    subst h
    simp
  | cons c rest ih =>
    simp only [scoreCandidates] at h
    rcases hc : _coords c.location with err | pt <;> rw [hc] at h
    · simp at h
    · rcases hrest : scoreCandidates base_lat base_lon pad radius_km base_labels rest with
        err2 | tail <;> rw [hrest] at h
      · simp at h
      · rcases pt with _ | ⟨lat, lon⟩
        · have htl : tail = l := by injection h
          subst htl
          have hpass : passesGeoFilter base_lat base_lon pad radius_km c = false := by
            simp only [passesGeoFilter, hc]
          rw [List.filter_cons, hpass]
          simpa using ih hrest
        · simp only at h
          split_ifs at h with h1 h2
          · have htl : tail = l := by injection h
            subst htl
            have hpass : passesGeoFilter base_lat base_lon pad radius_km c = false := by
              simp only [passesGeoFilter, hc, decide_eq_false_iff_not, not_and]
              intro _
              exact not_le.2 h2
            rw [List.filter_cons, hpass]
            simpa using ih hrest
          · have hcons : (⟨c.id, pyRound 2 (haversine_km base_lat base_lon lat lon),
                (base_labels ∩ label_set c.labels).card,
                pyRound 3 (matchScore ((base_labels ∩ label_set c.labels).card)
                  (haversine_km base_lat base_lon lat lon))⟩ : MatchEntry) :: tail = l := by
              injection h
            subst hcons
            have hpass : passesGeoFilter base_lat base_lon pad radius_km c = true := by
              simp only [passesGeoFilter, hc, decide_eq_true_eq]
              exact ⟨h1, not_lt.1 h2⟩
            rw [List.filter_cons, hpass]
            simp only [List.length_cons, if_true]
            rw [ih hrest]
          · have htl : tail = l := by injection h
            subst htl
            have hpass : passesGeoFilter base_lat base_lon pad radius_km c = false := by
              simp only [passesGeoFilter, hc, decide_eq_false_iff_not, not_and]
              intro hbb
              exact absurd hbb h1
            rw [List.filter_cons, hpass]
            simpa using ih hrest


/-- C4: for an on-demand auto-match on a base report with a parseable
location, every returned entry comes from an active, opposite-type,
same-species candidate that passed the ±`radius_km/111` bounding-box
pre-filter and lies within the exact haversine radius, and is scored
exactly `label_overlap * 10 - distance_km * 0.2` (stored rounded to 3
digits, with the 2-digit-rounded distance); the response is sorted
descending by score, truncated to `top_k`, and `total_candidates` is the
number of candidates that passed the geographic filter. -/
theorem auto_match_spec (report_id : String) (radius_km : ℝ) (top_k : ℕ)
    (table : List Report) (base : Report) (out : AutoMatchOut)
    (hbase : table.find? (fun r => r.id == report_id) = some base)
    (hok : auto_match report_id radius_km top_k table = .ok out) :
    ∃ base_lat base_lon, _coords base.location = .ok (some (base_lat, base_lon)) ∧
      (∀ e ∈ out.top_k, ∃ c ∈ table,
        (c.rtype = (if base.rtype = "lost" then "found" else "lost") ∧
          c.status = "active" ∧ c.species = base.species) ∧
        ∃ lat lon, _coords c.location = .ok (some (lat, lon)) ∧
          (base_lat - radius_km / 111.0 ≤ lat ∧ lat ≤ base_lat + radius_km / 111.0 ∧
            base_lon - radius_km / 111.0 ≤ lon ∧ lon ≤ base_lon + radius_km / 111.0) ∧
          haversine_km base_lat base_lon lat lon ≤ radius_km ∧
          e.candidateId = c.id ∧
          e.label_overlap = (label_set base.labels ∩ label_set c.labels).card ∧
          e.distance_km = pyRound 2 (haversine_km base_lat base_lon lat lon) ∧
          e.score = pyRound 3 (matchScore e.label_overlap
            (haversine_km base_lat base_lon lat lon))) ∧
      out.top_k.Sorted (fun a b => b.score ≤ a.score) ∧
      out.top_k.length = min top_k out.total_candidates ∧
      out.total_candidates = ((table.filter (fun c =>
          c.rtype == (if base.rtype == "lost" then "found" else "lost") &&
          c.status == "active" && c.species == base.species)).filter
        (passesGeoFilter base_lat base_lon (radius_km / 111.0) radius_km)).length ∧
      out.report_id = report_id ∧ out.radius_km = radius_km := by
  simp only [auto_match] at hok
  split at hok
  next hfind =>
    rw [hbase] at hfind
    cases hfind
  next base' hfind =>
    rw [hbase] at hfind
    injection hfind with hbb
    subst hbb
    split at hok
    next => cases hok
    next => cases hok
    next base_lat base_lon hbc =>
      split at hok
      next => cases hok
      next results hsc =>
        have hout : out = ⟨report_id, radius_km, results.length,
            (results.mergeSort (fun a b => decide (b.score ≤ a.score))).take top_k⟩ := by
          injection hok with h
          exact h.symm
        subst hout
        refine ⟨base_lat, base_lon, hbc, ?_, ?_, ?_, ?_, rfl, rfl⟩
        · intro e he
          have hmem : e ∈ results := by
            have h1 := List.take_subset top_k
              (results.mergeSort (fun a b => decide (b.score ≤ a.score))) he
            exact (List.Perm.mem_iff (List.mergeSort_perm _ _)).1 h1
          obtain ⟨c, hcmem, lat, lon, hco, hbb2, hdist, hid, hov, hdk, hscore⟩ :=
            scoreCandidates_ok_sound hsc e hmem
          have hmf := List.mem_filter.1 hcmem
          have hcond := hmf.2
          simp only [Bool.and_eq_true, beq_iff_eq] at hcond
          refine ⟨c, hmf.1, ⟨?_, hcond.1.2, hcond.2⟩, lat, lon, hco, hbb2, hdist,
            hid, hov, hdk, by rw [hov, hscore]⟩
          exact hcond.1.1
        · have hp := @List.sorted_mergeSort MatchEntry
            (fun a b => decide (b.score ≤ a.score))
            (fun a b c hab hbc2 => by
              simp only [decide_eq_true_eq] at *
              exact le_trans hbc2 hab)
            (fun a b => by
              simp only [Bool.or_eq_true, decide_eq_true_eq]
              exact le_total b.score a.score)
            results
          exact ((hp.sublist (List.take_sublist _ _)).imp (fun h => of_decide_eq_true h))
        · simp only [List.length_take]
          congr 1
          exact (List.mergeSort_perm results _).length_eq
        · exact scoreCandidates_ok_length hsc

/-- C4 witness: a concrete auto-match run — a lost base report and one
found candidate of the same species at the same point — returns exactly
one scored entry, sorted, with `total_candidates = 1`. -/
theorem auto_match_spec_witness :
    ([⟨"b", "lost", "active", some "dog", .geojson [0, 0], .falsy⟩,
      ⟨"c", "found", "active", some "dog", .geojson [0, 0], .falsy⟩] : List Report).find?
        (fun r => r.id == "b") =
      some ⟨"b", "lost", "active", some "dog", .geojson [0, 0], .falsy⟩ ∧
    auto_match "b" 10 5
      [⟨"b", "lost", "active", some "dog", .geojson [0, 0], .falsy⟩,
       ⟨"c", "found", "active", some "dog", .geojson [0, 0], .falsy⟩] =
      .ok ⟨"b", 10, 1, [⟨"c", 0, 0, 0⟩]⟩ ∧
    List.Sorted (fun a b : MatchEntry => b.score ≤ a.score) [(⟨"c", 0, 0, 0⟩ : MatchEntry)] ∧
    ([(⟨"c", 0, 0, 0⟩ : MatchEntry)].length = min 5 1) := by
  have hfind : ([⟨"b", "lost", "active", some "dog", .geojson [0, 0], .falsy⟩,
      ⟨"c", "found", "active", some "dog", .geojson [0, 0], .falsy⟩] : List Report).find?
        (fun r => r.id == "b") =
      some ⟨"b", "lost", "active", some "dog", .geojson [0, 0], .falsy⟩ := rfl
  have hsc : scoreCandidates 0 0 (10 / 111.0) 10 (label_set PyLabels.falsy)
      [⟨"c", "found", "active", some "dog", .geojson [0, 0], .falsy⟩] =
      .ok [⟨"c", 0, 0, 0⟩] := by
    show (if ((0:ℝ) - 10 / 111.0 ≤ 0 ∧ (0:ℝ) ≤ 0 + 10 / 111.0 ∧
        (0:ℝ) - 10 / 111.0 ≤ 0 ∧ (0:ℝ) ≤ 0 + 10 / 111.0) then
        if haversine_km 0 0 0 0 > 10 then Except.ok []
        else Except.ok [(⟨"c", pyRound 2 (haversine_km 0 0 0 0),
          ((label_set PyLabels.falsy) ∩ (label_set PyLabels.falsy)).card,
          pyRound 3 (matchScore (((label_set PyLabels.falsy) ∩
            (label_set PyLabels.falsy)).card) (haversine_km 0 0 0 0))⟩ : MatchEntry)]
      else Except.ok []) = Except.ok [(⟨"c", 0, 0, 0⟩ : MatchEntry)]
    rw [if_pos (by norm_num), haversine_km_self,
      if_neg (by norm_num : ¬ (0:ℝ) > 10)]
    norm_num [label_set, pyRound, matchScore]
  have hauto : auto_match "b" 10 5
      [⟨"b", "lost", "active", some "dog", .geojson [0, 0], .falsy⟩,
       ⟨"c", "found", "active", some "dog", .geojson [0, 0], .falsy⟩] =
      .ok ⟨"b", 10, 1, [⟨"c", 0, 0, 0⟩]⟩ := by
    show (match scoreCandidates 0 0 (10 / 111.0) 10 (label_set PyLabels.falsy)
        [⟨"c", "found", "active", some "dog", .geojson [0, 0], .falsy⟩] with
      | .error err => (Except.error err : Except ReqError AutoMatchOut)
      | .ok results => Except.ok (⟨"b", 10, results.length,
          (results.mergeSort (fun a b => decide (b.score ≤ a.score))).take 5⟩ : AutoMatchOut)) =
      Except.ok (⟨"b", (10 : ℝ), 1, [⟨"c", 0, 0, 0⟩]⟩ : AutoMatchOut)
    rw [hsc]
    show Except.ok (⟨"b", (10 : ℝ), ([(⟨"c", 0, 0, 0⟩ : MatchEntry)]).length,
        (([(⟨"c", 0, 0, 0⟩ : MatchEntry)]).mergeSort
          (fun a b => decide (b.score ≤ a.score))).take 5⟩ : AutoMatchOut) =
      Except.ok (⟨"b", (10 : ℝ), 1, [⟨"c", 0, 0, 0⟩]⟩ : AutoMatchOut)
    rw [List.mergeSort_singleton]
    rfl
  refine ⟨hfind, hauto, ?_, by simp⟩
  obtain ⟨blat, blon, _, _, hsorted, _, _⟩ := auto_match_spec "b" 10 5
    [⟨"b", "lost", "active", some "dog", .geojson [0, 0], .falsy⟩,
     ⟨"c", "found", "active", some "dog", .geojson [0, 0], .falsy⟩]
    ⟨"b", "lost", "active", some "dog", .geojson [0, 0], .falsy⟩
    ⟨"b", 10, 1, [⟨"c", 0, 0, 0⟩]⟩ hfind hauto
  exact hsorted

set_option maxHeartbeats 1600000 in
/-- Soundness of the AI-search scoring loop: every retained result comes
from a candidate with parseable coordinates within the radius; its scores
are the code's formulas, its weighted total is at least 30, and its
confidence label follows the 70/50 thresholds. -/
theorem aiScoreLoop_ok_sound {user_lat user_lng radius_km : ℝ}
    {cs : List AICandidate} {l : List AIResult}
    (h : aiScoreLoop user_lat user_lng radius_km cs = .ok l) :
    ∀ e ∈ l, ∃ c ∈ cs, ∃ lat lon, _coords c.location = .ok (some (lat, lon)) ∧
      haversine_km user_lat user_lng lat lon ≤ radius_km ∧
      ∃ visual color location time total : ℝ,
        visual = (match c.similarity with | some s => s * 100 | none => 50) ∧
        color = (if c.colors ≠ [] then calculate_color_similarity [] c.colors else 0) ∧
        location = calculate_location_score (haversine_km user_lat user_lng lat lon)
          radius_km ∧
        time = calculate_time_score c.created_days_old ∧
        total = visual * 0.4 + color * 0.3 + location * 0.2 + time * 0.1 ∧
        total = 0.4 * visual + 0.3 * color + 0.2 * location + 0.1 * time ∧
        total ≥ 30 ∧
        e = ⟨c.id, pyRound 2 (haversine_km user_lat user_lng lat lon), pyRound 1 visual,
          pyRound 1 color, pyRound 1 location, pyRound 1 time, pyRound 1 total,
          if total ≥ 70 then "Alta" else if total ≥ 50 then "Media" else "Baja"⟩ := by
  induction cs generalizing l with
  | nil =>
    simp only [aiScoreLoop, Except.ok.injEq] at h
    subst h
    intro e he
    simp at he
  | cons c rest ih =>
    simp only [aiScoreLoop] at h
    rcases hc : _coords c.location with err | pt <;> rw [hc] at h
    · simp at h
    · rcases hrest : aiScoreLoop user_lat user_lng radius_km rest with err2 | tail <;>
        rw [hrest] at h
      · simp at h
      · rcases pt with _ | ⟨lat, lon⟩
        · have htl : tail = l := by injection h
          subst htl
          intro e he
          obtain ⟨c', hc', rest'⟩ := ih hrest e he
          exact ⟨c', List.mem_cons_of_mem _ hc', rest'⟩
        · simp only at h
          by_cases h1 : haversine_km user_lat user_lng lat lon > radius_km
          · rw [if_pos h1] at h
            have htl : tail = l := by injection h
            subst htl
            intro e he
            obtain ⟨c', hc', rest'⟩ := ih hrest e he
            exact ⟨c', List.mem_cons_of_mem _ hc', rest'⟩
          · rw [if_neg h1] at h
            by_cases h2 : (match c.similarity with | some s => s * 100 | none => 50) * 0.4 +
                (if c.colors ≠ [] then calculate_color_similarity [] c.colors else 0) * 0.3 +
                calculate_location_score (haversine_km user_lat user_lng lat lon)
                  radius_km * 0.2 +
                calculate_time_score c.created_days_old * 0.1 ≥ 30
            · rw [if_pos h2] at h
              injection h with hcons
              subst hcons
              intro e he
              rcases List.mem_cons.1 he with rfl | he
              · refine ⟨c, List.mem_cons_self _ _, lat, lon, hc, not_lt.1 h1,
                  _, _, _, _, _, rfl, rfl, rfl, rfl, rfl, ?_, h2, rfl⟩
                ring
              · obtain ⟨c', hc', rest'⟩ := ih hrest e he
                exact ⟨c', List.mem_cons_of_mem _ hc', rest'⟩
            · rw [if_neg h2] at h
              have htl : tail = l := by injection h
              subst htl
              intro e he
              obtain ⟨c', hc', rest'⟩ := ih hrest e he
              exact ⟨c', List.mem_cons_of_mem _ hc', rest'⟩

/-- C5: the AI visual-search scoring.  The location score is `100` at zero
distance, `0` at or beyond the radius and `max(0, 100 - (d/r)*100)` in
between; the time score is `100`/`80`/`60`/`40` at the 1/7/30-day
boundaries and `50` when the timestamp cannot be parsed; every retained
candidate's total equals `0.4*visual + 0.3*color + 0.2*location +
0.1*time` and is at least 30 (lower totals are dropped); the results are
sorted descending by total score, capped at 20, and labelled `Alta`
(≥ 70) / `Media` (≥ 50) / `Baja`. -/
theorem ai_search_scoring_spec :
    (∀ r : ℝ, calculate_location_score 0 r = 100) ∧
    (∀ d r : ℝ, 0 < d → r ≤ d → calculate_location_score d r = 0) ∧
    (∀ d r : ℝ, 0 < d → d < r → calculate_location_score d r = max 0 (100 - d / r * 100)) ∧
    (∀ days : ℤ, days ≤ 1 → calculate_time_score (some days) = 100) ∧
    (∀ days : ℤ, 1 < days → days ≤ 7 → calculate_time_score (some days) = 80) ∧
    (∀ days : ℤ, 7 < days → days ≤ 30 → calculate_time_score (some days) = 60) ∧
    (∀ days : ℤ, 30 < days → calculate_time_score (some days) = 40) ∧
    calculate_time_score none = 50 ∧
    (∀ (user_lat user_lng radius_km : ℝ) (cands : List AICandidate)
      (res : List AIResult),
      ai_search_rank user_lat user_lng radius_km cands = .ok res →
      (∀ e ∈ res, ∃ c ∈ cands, ∃ lat lon,
        _coords c.location = .ok (some (lat, lon)) ∧
        haversine_km user_lat user_lng lat lon ≤ radius_km ∧
        ∃ visual color location time total : ℝ,
          visual = (match c.similarity with | some s => s * 100 | none => 50) ∧
          color = (if c.colors ≠ [] then calculate_color_similarity [] c.colors else 0) ∧
          location = calculate_location_score (haversine_km user_lat user_lng lat lon)
            radius_km ∧
          time = calculate_time_score c.created_days_old ∧
          total = visual * 0.4 + color * 0.3 + location * 0.2 + time * 0.1 ∧
          total = 0.4 * visual + 0.3 * color + 0.2 * location + 0.1 * time ∧
          total ≥ 30 ∧
          e = ⟨c.id, pyRound 2 (haversine_km user_lat user_lng lat lon), pyRound 1 visual,
            pyRound 1 color, pyRound 1 location, pyRound 1 time, pyRound 1 total,
            if total ≥ 70 then "Alta" else if total ≥ 50 then "Media" else "Baja"⟩) ∧
      res.Sorted (fun a b => b.total_score ≤ a.total_score) ∧
      res.length ≤ 20) := by
  refine ⟨fun r => ?_, fun d r hd hr => ?_, fun d r hd hr => ?_,
    fun days hle => ?_, fun days hgt hle => ?_, fun days hgt hle => ?_,
    fun days hgt => ?_, rfl, fun user_lat user_lng radius_km cands res hok => ?_⟩
  · simp [calculate_location_score]
  · rw [calculate_location_score, if_neg (by linarith), if_pos (by linarith)]
  · rw [calculate_location_score, if_neg (by linarith), if_neg (by linarith)]
  · simp only [calculate_time_score, if_pos hle]
  · simp only [calculate_time_score, if_neg (by omega : ¬ days ≤ 1), if_pos hle]
  · simp only [calculate_time_score, if_neg (by omega : ¬ days ≤ 1),
      if_neg (by omega : ¬ days ≤ 7), if_pos hle]
  · simp only [calculate_time_score, if_neg (by omega : ¬ days ≤ 1),
      if_neg (by omega : ¬ days ≤ 7), if_neg (by omega : ¬ days ≤ 30)]
  · rw [ai_search_rank] at hok
    rcases hloop : aiScoreLoop user_lat user_lng radius_km cands with err | results <;>
      rw [hloop] at hok
    · cases hok
    · have hres : res = (results.mergeSort
          (fun a b => decide (b.total_score ≤ a.total_score))).take 20 := by
        injection hok with h'
        exact h'.symm
      subst hres
      refine ⟨?_, ?_, ?_⟩
      · intro e he
        have hmem : e ∈ results := by
          have h1 := List.take_subset 20
            (results.mergeSort (fun a b => decide (b.total_score ≤ a.total_score))) he
          exact (List.Perm.mem_iff (List.mergeSort_perm _ _)).1 h1
        exact aiScoreLoop_ok_sound hloop e hmem
      · have hp := @List.sorted_mergeSort AIResult
          (fun a b => decide (b.total_score ≤ a.total_score))
          (fun a b c hab hbc => by
            simp only [decide_eq_true_eq] at *
            exact le_trans hbc hab)
          (fun a b => by
            simp only [Bool.or_eq_true, decide_eq_true_eq]
            exact le_total b.total_score a.total_score)
          results
        exact ((hp.sublist (List.take_sublist _ _)).imp (fun h => of_decide_eq_true h))
      · calc ((results.mergeSort
            (fun a b => decide (b.total_score ≤ a.total_score))).take 20).length
            ≤ 20 := by
              rw [List.length_take]
              exact min_le_left _ _

/-- C5 witness: the scoring-function cases at concrete values, and a
concrete run of the ranking stage — one candidate at the user's position
with vector similarity `0.9`, no colors, a fresh timestamp — is retained
with total `0.9*100*0.4 + 0*0.3 + 100*0.2 + 100*0.1 = 66` and labelled
`Media`. -/
theorem ai_search_scoring_spec_witness :
    calculate_location_score 0 10 = 100 ∧
    calculate_location_score 12 10 = 0 ∧
    calculate_location_score 5 10 = max 0 (100 - 5 / 10 * 100) ∧
    calculate_time_score (some 0) = 100 ∧
    calculate_time_score (some 5) = 80 ∧
    calculate_time_score (some 20) = 60 ∧
    calculate_time_score (some 40) = 40 ∧
    calculate_time_score none = 50 ∧
    ai_search_rank 0 0 10 [⟨"c", some 0.9, [], some 0, .geojson [0, 0]⟩] =
      .ok [⟨"c", 0, 90, 0, 100, 100, 66, "Media"⟩] ∧
    List.Sorted (fun a b : AIResult => b.total_score ≤ a.total_score)
      [(⟨"c", 0, 90, 0, 100, 100, 66, "Media"⟩ : AIResult)] ∧
    ([(⟨"c", 0, 90, 0, 100, 100, 66, "Media"⟩ : AIResult)] : List AIResult).length ≤ 20 := by
  have hloop : aiScoreLoop 0 0 10 [⟨"c", some 0.9, [], some 0, .geojson [0, 0]⟩] =
      .ok [⟨"c", 0, 90, 0, 100, 100, 66, "Media"⟩] := by
    show (if haversine_km 0 0 0 0 > 10 then (Except.ok [] : Except ReqError (List AIResult))
      else if ((0.9 : ℝ) * 100 * 0.4 + 0 * 0.3 +
          calculate_location_score (haversine_km 0 0 0 0) 10 * 0.2 +
          calculate_time_score (some 0) * 0.1) ≥ 30 then
        Except.ok [(⟨"c", pyRound 2 (haversine_km 0 0 0 0), pyRound 1 ((0.9 : ℝ) * 100),
          pyRound 1 0, pyRound 1 (calculate_location_score (haversine_km 0 0 0 0) 10),
          pyRound 1 (calculate_time_score (some 0)),
          pyRound 1 ((0.9 : ℝ) * 100 * 0.4 + 0 * 0.3 +
            calculate_location_score (haversine_km 0 0 0 0) 10 * 0.2 +
            calculate_time_score (some 0) * 0.1),
          if ((0.9 : ℝ) * 100 * 0.4 + 0 * 0.3 +
              calculate_location_score (haversine_km 0 0 0 0) 10 * 0.2 +
              calculate_time_score (some 0) * 0.1) ≥ 70 then "Alta"
          else if ((0.9 : ℝ) * 100 * 0.4 + 0 * 0.3 +
              calculate_location_score (haversine_km 0 0 0 0) 10 * 0.2 +
              calculate_time_score (some 0) * 0.1) ≥ 50 then "Media"
          else "Baja"⟩ : AIResult)]
      else Except.ok []) = Except.ok [(⟨"c", 0, 90, 0, 100, 100, 66, "Media"⟩ : AIResult)]
    rw [haversine_km_self]
    have hloc : calculate_location_score 0 10 = 100 := by
      simp [calculate_location_score]
    have htime : calculate_time_score (some 0) = 100 := by
      norm_num [calculate_time_score]
    rw [hloc, htime]
    rw [show ((0.9 : ℝ) * 100 * 0.4 + 0 * 0.3 + 100 * 0.2 + 100 * 0.1) = 66 by norm_num]
    rw [if_neg (show ¬ (0 : ℝ) > 10 by norm_num),
      if_pos (show (66 : ℝ) ≥ 30 by norm_num),
      if_neg (show ¬ (66 : ℝ) ≥ 70 by norm_num),
      if_pos (show (66 : ℝ) ≥ 50 by norm_num)]
    norm_num [pyRound, round_eq]
  have hrank : ai_search_rank 0 0 10 [⟨"c", some 0.9, [], some 0, .geojson [0, 0]⟩] =
      .ok [⟨"c", 0, 90, 0, 100, 100, 66, "Media"⟩] := by
    rw [ai_search_rank, hloop]
    show Except.ok ((([(⟨"c", 0, 90, 0, 100, 100, 66, "Media"⟩ : AIResult)]).mergeSort
        (fun a b => decide (b.total_score ≤ a.total_score))).take 20) =
      Except.ok [(⟨"c", 0, 90, 0, 100, 100, 66, "Media"⟩ : AIResult)]
    rw [List.mergeSort_singleton]
    rfl
  obtain ⟨hl1, hl2, hl3, ht1, ht2, ht3, ht4, htn, hpipe⟩ := ai_search_scoring_spec
  obtain ⟨_, hsorted, hlen⟩ := hpipe 0 0 10 [⟨"c", some 0.9, [], some 0, .geojson [0, 0]⟩]
    [⟨"c", 0, 90, 0, 100, 100, 66, "Media"⟩] hrank
  exact ⟨hl1 10, hl2 12 10 (by norm_num) (by norm_num),
    hl3 5 10 (by norm_num) (by norm_num), ht1 0 (by norm_num),
    ht2 5 (by norm_num) (by norm_num), ht3 20 (by norm_num) (by norm_num),
    ht4 40 (by norm_num), htn, hrank, hsorted, hlen⟩

/-- C10: the GeoJSON extractor shared by the matches and AI-search routers
destructures `loc["coordinates"]` with no exception guard, so a
coordinates list that does not have exactly 2 elements raises, and a
request that reaches it fails as a whole with a server error — shown on a
concrete auto-match table (the uncaught exception becomes FastAPI's
500-class response) and a concrete AI-search ranking run (the handler's
`try/except` re-raises as an explicit HTTP 500) — while the reports
router's extractor maps every such malformed location to `None` and never
raises. -/
theorem coords_malformed_spec (cs : List ℝ) (hlen : cs.length ≠ 2) :
    _coords (.geojson cs) = .error .uncaught ∧
    _extract_coords (.geojson cs) = none ∧
    auto_match "b" 10 5
      [⟨"b", "lost", "active", some "dog", .geojson [0, 0], .falsy⟩,
       ⟨"c", "found", "active", some "dog", .geojson [1, 2, 3], .falsy⟩] =
      .error .uncaught ∧
    ai_search_rank 0 0 10 [⟨"c", some 0.9, [], some 0, .geojson [1, 2, 3]⟩] =
      .error (.http 500) := by
  have hunpack : unpack2 cs = .error .uncaught := by
    match cs, hlen with
    | [], _ => rfl
    | [a], _ => rfl
    | [a, b], h => exact absurd rfl h
    | a :: b :: c :: rest, _ => rfl
  refine ⟨?_, ?_, rfl, rfl⟩
  · show (do
      let (lon, lat) ← unpack2 cs
      pure (some (lat, lon)) : Except ReqError (Option (ℝ × ℝ))) = .error .uncaught
    rw [hunpack]
    rfl
  · show (match unpack2 cs with
      | .ok (lon, lat) => some (lat, lon)
      | .error _ => none) = none
    rw [hunpack]

/-- C10 witness: the three-element coordinates list `[1, 2, 3]` raises in
the matches/AI-search extractor, is mapped to `None` by the reports
extractor, and makes the concrete auto-match and AI-search requests fail
with a server error. -/
theorem coords_malformed_spec_witness :
    _coords (.geojson [1, 2, 3]) = .error .uncaught ∧
    _extract_coords (.geojson [1, 2, 3]) = none ∧
    auto_match "b" 10 5
      [⟨"b", "lost", "active", some "dog", .geojson [0, 0], .falsy⟩,
       ⟨"c", "found", "active", some "dog", .geojson [1, 2, 3], .falsy⟩] =
      .error .uncaught ∧
    ai_search_rank 0 0 10 [⟨"c", some 0.9, [], some 0, .geojson [1, 2, 3]⟩] =
      .error (.http 500) :=
  coords_malformed_spec [1, 2, 3] (by simp)
